import Mathlib

namespace PriceListApi

/-!
Verification development for the price-list / appointment-booking services.

The JavaScript sources are shallowly embedded:
* strings are Lean `String`s, JavaScript machine numbers that the code only
  ever produces as small integers are `Nat`/`Int`;
* dynamically typed JSON request fields are modelled by `JsVal`
  (an integer, a string, or `undefined`), with JavaScript truthiness,
  `String(...)`, `Number(...)`, `parseInt(...)` and loose equality `==`
  modelled on the integer-literal fragment the program manipulates;
* `Date` values built from `"YYYY-MM-DD"` / `"HH:MM"` strings are modelled
  as minutes on a proleptic-Gregorian day count (`parseFechaHora`); an
  invalid date (JavaScript `NaN`) is `none`, and every comparison against
  `NaN`, being false in JavaScript, is false on `none`;
* network / spreadsheet / file I/O is passed in explicitly: the sheet rows
  are a `List (List String)` argument, the Excel read outcome is an
  `Except` argument, and "append a row" is modelled by returning the row
  that the handler appends.
-/

/-! ### JavaScript string primitives -/

/-- JavaScript whitespace (the ASCII part of `\s`, which is all the
program ever meets): space, tab, LF, VT, FF, CR. -/
def jsEsEspacio (c : Char) : Bool :=
  c = ' ' || c = '\t' || c = '\n' || c = '\x0b' || c = '\x0c' || c = '\r'

/-- Model of `String.prototype.trim()`. -/
def jsTrim (s : String) : String :=
  ⟨((s.toList.dropWhile jsEsEspacio).reverse.dropWhile jsEsEspacio).reverse⟩

/-- The regex class `[0-9]` (JavaScript `\d`), decided on code points. -/
def esDigito (c : Char) : Bool :=
  48 ≤ c.toNat && c.toNat ≤ 57

/-- Numeric value of a digit character. -/
def valorDigito (c : Char) : Nat := c.toNat - 48

/-- Decimal value of a digit run (what `parseInt` does to a captured group
consisting of digits). -/
def valorDecimal (cs : List Char) : Nat :=
  cs.foldl (fun acc c => 10 * acc + valorDigito c) 0

/-! ### The tire-specification parser (`src/server.js`, `parseTireSpecification`)

Each of the four regular expressions is embedded as a function on the
character list of the (trimmed) product name.  The regexes only combine
fixed-width digit groups `\d{n}`, `\s+`, literal characters and a final
`\s`/`\d{2}`; since digits and whitespace are disjoint, greedy matching is
the only possible matching and each regex is equivalent to the
deterministic scan written here. -/

/-- Split a character list into its maximal leading digit run and the rest. -/
def tomaDigitos (cs : List Char) : List Char × List Char :=
  (cs.takeWhile esDigito, cs.dropWhile esDigito)

/-- Consume `\s+`: at least one whitespace character, then all following
whitespace (the next regex atom is never whitespace). -/
def tomaEspacios : List Char → Option (List Char)
  | [] => none
  | c :: rest => if jsEsEspacio c then some (rest.dropWhile jsEsEspacio) else none

/-- Pattern 1, `^(\d{3})\s+(\d{2})\s+(\d{2})\s` — car tire `155 70 13 ...`. -/
def matchCarTire (cs : List Char) : Option (Nat × Nat × Nat) := do
  let (ws, r1) := tomaDigitos cs
  if ws.length = 3 then
    let r2 ← tomaEspacios r1
    let (as_, r3) := tomaDigitos r2
    if as_.length = 2 then
      let r4 ← tomaEspacios r3
      let (ds, r5) := tomaDigitos r4
      if ds.length = 2 then
        let _ ← tomaEspacios r5
        pure (valorDecimal ws, valorDecimal as_, valorDecimal ds)
      else none
    else none
  else none

/-- Pattern 2, `^(\d{3})\s+(\d{2})\s+R(\d{2})\s` — car tire `175 65 R15 ...`. -/
def matchCarTireR (cs : List Char) : Option (Nat × Nat × Nat) := do
  let (ws, r1) := tomaDigitos cs
  if ws.length = 3 then
    let r2 ← tomaEspacios r1
    let (as_, r3) := tomaDigitos r2
    if as_.length = 2 then
      let r4 ← tomaEspacios r3
      match r4 with
      | 'R' :: r5 =>
        let (ds, r6) := tomaDigitos r5
        if ds.length = 2 then
          let _ ← tomaEspacios r6
          pure (valorDecimal ws, valorDecimal as_, valorDecimal ds)
        else none
      | _ => none
    else none
  else none

/-- Pattern 3, `^(\d{3,4})\s+R(\d{2})\s` — truck tire `1100 R22 ...`. -/
def matchTruckTire (cs : List Char) : Option (Nat × Nat) := do
  let (ws, r1) := tomaDigitos cs
  if ws.length = 3 || ws.length = 4 then
    let r2 ← tomaEspacios r1
    match r2 with
    | 'R' :: r3 =>
      let (ds, r4) := tomaDigitos r3
      if ds.length = 2 then
        let _ ← tomaEspacios r4
        pure (valorDecimal ws, valorDecimal ds)
      else none
    | _ => none
  else none

/-- One attempt of `(\d{3})\/(\d{2})[-R](\d{2})` anchored at the current
position.  The final `(\d{2})` has no follow-up atom, so it only needs two
digit characters at that position. -/
def matchStandardAqui (cs : List Char) : Option (Nat × Nat × Nat) := do
  let (ws, r1) := tomaDigitos cs
  if ws.length = 3 then
    match r1 with
    | '/' :: r2 =>
      let (as_, r3) := tomaDigitos r2
      if as_.length = 2 then
        match r3 with
        | sep :: d1 :: d2 :: _ =>
          if (sep = '-' || sep = 'R') && esDigito d1 && esDigito d2 then
            pure (valorDecimal ws, valorDecimal as_, valorDecimal [d1, d2])
          else none
        | _ => none
      else none
    | _ => none
  else none

/-- Unanchored search for the inline pattern: leftmost match, as
`String.prototype.match` returns. -/
def matchStandard : List Char → Option (Nat × Nat × Nat)
  | [] => none
  | c :: rest =>
    match matchStandardAqui (c :: rest) with
    | some r => some r
    | none => matchStandard rest

inductive TireType where
  | car
  | truck
deriving DecidableEq, Repr

/-- The parse result object `specs` of `parseTireSpecification`. -/
structure TireSpecs where
  width : Option Nat
  aspect_ratio : Option Nat
  rim_diameter : Option Nat
  type : Option TireType
  original : String
deriving DecidableEq, Repr

/-- The function `parseTireSpecification` (`src/server.js` lines 67–131): trim the name,
then try the four patterns in order, the first match filling the fields. -/
def parseTireSpecification (productName : String) : TireSpecs :=
  let name := jsTrim productName
  let cs := name.toList
  match matchCarTire cs with
  | some (w, a, d) => ⟨some w, some a, some d, some .car, name⟩
  | none =>
    match matchCarTireR cs with
    | some (w, a, d) => ⟨some w, some a, some d, some .car, name⟩
    | none =>
      match matchTruckTire cs with
      | some (w, d) => ⟨some w, none, some d, some .truck, name⟩
      | none =>
        match matchStandard cs with
        | some (w, a, d) => ⟨some w, some a, some d, some .car, name⟩
        | none => ⟨none, none, none, none, name⟩

/-- The result the spec prescribes for one matched pattern. -/
def especDePatron (name : String) : Nat × Option Nat × Nat × TireType → TireSpecs
  | (w, a, d, t) => ⟨some w, a, some d, some t, name⟩

/-- The parser as the specification words it: the four patterns are listed
in priority order, the first one that matches alone determines the fields,
and if none matches every field is null. -/
def specParse (productName : String) : TireSpecs :=
  let name := jsTrim productName
  let cs := name.toList
  let intentos : List (Option (Nat × Option Nat × Nat × TireType)) :=
    [ (matchCarTire cs).map (fun (w, a, d) => (w, some a, d, .car)),
      (matchCarTireR cs).map (fun (w, a, d) => (w, some a, d, .car)),
      (matchTruckTire cs).map (fun (w, d) => (w, none, d, .truck)),
      (matchStandard cs).map (fun (w, a, d) => (w, some a, d, .car)) ]
  match intentos.findSome? id with
  | some r => especDePatron name r
  | none => ⟨none, none, none, none, name⟩

/-! ### Dynamically typed request values

The search endpoints read their parameters from a JSON body, so a field is
an integer, a string, or absent (`undefined`).  The JavaScript coercions
the handler applies to them are modelled on that fragment. -/

inductive JsVal where
  | num (n : Int)
  | str (s : String)
  | indefinido
deriving DecidableEq, Repr

/-- JavaScript truthiness on these values (`0`, `""` and `undefined` are
falsy; the program never produces `NaN` inside a `JsVal`). -/
def JsVal.truthy : JsVal → Bool
  | .num n => n != 0
  | .str s => s != ""
  | .indefinido => false

/-- JavaScript `a || b`. -/
def jsOr (a b : JsVal) : JsVal := if a.truthy then a else b

/-- Model of `String(v)` for the values a truthy request field can hold. -/
def jsValToString : JsVal → String
  | .num n => toString n
  | .str s => s
  | .indefinido => "undefined"

/-- Model of `Number(s)` on the integer-literal fragment: optional whitespace, an
optional sign and a digit run; the empty (or all-whitespace) string is `0`;
anything else the program meets (such as `"R13"`) is `NaN`, here `none`. -/
def jsNumberOfString (s : String) : Option Int :=
  let cs := (s.toList.dropWhile jsEsEspacio).reverse.dropWhile jsEsEspacio |>.reverse
  match cs with
  | [] => some 0
  | '-' :: rest =>
    if rest ≠ [] && rest.all esDigito then some (-(valorDecimal rest : Int)) else none
  | '+' :: rest =>
    if rest ≠ [] && rest.all esDigito then some (valorDecimal rest : Int) else none
  | _ =>
    if cs.all esDigito then some (valorDecimal cs : Int) else none

/-- Model of `parseInt(s)`: skip leading whitespace, optional sign, then the longest
leading digit run; `NaN` (`none`) if that run is empty. -/
def jsParseIntOfString (s : String) : Option Int :=
  let cs := s.toList.dropWhile jsEsEspacio
  match cs with
  | '-' :: rest =>
    let ds := rest.takeWhile esDigito
    if ds = [] then none else some (-(valorDecimal ds : Int))
  | '+' :: rest =>
    let ds := rest.takeWhile esDigito
    if ds = [] then none else some (valorDecimal ds : Int)
  | _ =>
    let ds := cs.takeWhile esDigito
    if ds = [] then none else some (valorDecimal ds : Int)

/-- Model of `parseInt(v)` on a request value (`undefined` gives `NaN`). -/
def jsParseInt : JsVal → Option Int
  | .num n => some n
  | .str s => jsParseIntOfString s
  | .indefinido => none

/-- The `ToNumber` coercion of a request value, as applied by arithmetic such as
`specs.aspect_ratio - finalAspectRatio` (`undefined` gives `NaN`). -/
def jsToNumber : JsVal → Option Int
  | .num n => some n
  | .str s => jsNumberOfString s
  | .indefinido => none

/-- Loose equality `n == v` between a number and a request value: a string
is coerced with `Number`, `undefined` never equals a number, and a `NaN`
comparison is false. -/
def jsLooseEqNum (n : Int) (v : JsVal) : Bool :=
  match v with
  | .num m => n == m
  | .str s => jsNumberOfString s == some n
  | .indefinido => false

/-- Loose equality `a == v` where `a` is a parsed-spec field (`null` when
absent): `null` loosely equals only `undefined`. -/
def jsLooseEqOpt (a : Option Nat) (v : JsVal) : Bool :=
  match a with
  | some n => jsLooseEqNum (n : Int) v
  | none => v == .indefinido

/-- Model of the call removing every R, `String(x).replace(/[rR]/g, empty)`. -/
def quitaR (s : String) : String :=
  ⟨s.toList.filter (fun c => !(c = 'r' || c = 'R'))⟩

/-- Model of `String(x)` on a nullable parsed field (`String(null)` is `"null"`). -/
def jsOptNatToString : Option Nat → String
  | some n => toString n
  | none => "null"

/-- Strict equality `===` between two `parseInt` results; `NaN === NaN` is
false, so two `none`s do not match. -/
def strictEqNum (a b : Option Int) : Bool :=
  match a, b with
  | some x, some y => x == y
  | _, _ => false

/-- The "intelligent" diameter comparison used by the fuzzy-car and truck
branches: strip `R`/`r` from both sides, `parseInt`, compare strictly. -/
def rimNumEq (v : JsVal) (d : Option Nat) : Bool :=
  strictEqNum (jsParseIntOfString (quitaR (jsValToString v)))
    (jsParseIntOfString (quitaR (jsOptNatToString d)))

/-- The fuzzy aspect-ratio test
`!finalAspectRatio || Math.abs(specs.aspect_ratio - finalAspectRatio) <= 5`
(`null` coerces to `0` in the subtraction; a `NaN` comparison is false). -/
def coincideAspecto (fa : JsVal) (aspect : Option Nat) : Bool :=
  !fa.truthy ||
    match jsToNumber fa with
    | some q => decide (((aspect.getD 0 : Int) - q).natAbs ≤ 5)
    | none => false

/-! ### The tire-search endpoint (`src/server.js`, `POST /api/price-list/tire-search`) -/

/-- One spreadsheet row as the search endpoints use it: `Producto` (the
free-text name) and `PRECIO FINAL` (the numeric cell `parseFloat` yields;
the program only sorts and compares these, so an integer price model
suffices).  `ID Producto` is carried along for identification. -/
structure Product where
  idProducto : String
  producto : String
  precioFinal : Int
deriving DecidableEq, Repr

/-- The request body of `POST /api/price-list/tire-search`. -/
structure TireQuery where
  width : JsVal
  aspect_ratio : JsVal
  aspectRatio : JsVal
  rim_diameter : JsVal
  diameter : JsVal
  exact_match : Bool
  limit : JsVal
deriving Repr

/-- The filter predicate of the `matchingTires` computation, on the parsed
specs of one product (source lines 569–603). -/
def llantaCoincide (q : TireQuery) (specs : TireSpecs) : Bool :=
  let finalAspectRatio := jsOr q.aspect_ratio q.aspectRatio
  let finalRimDiameter := jsOr q.rim_diameter q.diameter
  if !jsLooseEqOpt specs.width q.width then false
  else if finalAspectRatio.truthy then
    -- searchType car
    if q.exact_match then
      jsLooseEqOpt specs.aspect_ratio finalAspectRatio &&
        jsLooseEqOpt specs.rim_diameter finalRimDiameter
    else
      let aspectMatch := coincideAspecto finalAspectRatio specs.aspect_ratio
      let rimMatch :=
        if finalRimDiameter.truthy then rimNumEq finalRimDiameter specs.rim_diameter
        else true
      aspectMatch && rimMatch
  else
    -- searchType truck
    if !finalRimDiameter.truthy then true
    else rimNumEq finalRimDiameter specs.rim_diameter

/-- Products whose name parses to a non-null width, paired with their specs
(the `tireProducts` computation). -/
def tireProducts (data : List Product) : List (Product × TireSpecs) :=
  (data.map (fun p => (p, parseTireSpecification p.producto))).filter
    (fun x => x.2.width ≠ none)

/-- The `matchingTires` array: the tire products passing the search filter. -/
def matchingTires (q : TireQuery) (data : List Product) : List (Product × TireSpecs) :=
  (tireProducts data).filter (fun x => llantaCoincide q x.2)

/-- Stable insertion by final price (ascending), modelling the stable
`Array.prototype.sort` with comparator `priceA - priceB`. -/
def insertaPorPrecio (x : Product × TireSpecs) :
    List (Product × TireSpecs) → List (Product × TireSpecs)
  | [] => [x]
  | y :: ys =>
    if y.1.precioFinal ≤ x.1.precioFinal then y :: insertaPorPrecio x ys
    else x :: y :: ys

/-- Sort the matches ascending by final price. -/
def ordenaPorPrecio : List (Product × TireSpecs) → List (Product × TireSpecs)
  | [] => []
  | x :: xs => insertaPorPrecio x (ordenaPorPrecio xs)

/-- Evaluation of `Math.min(Math.max(parseInt(limit) || 10, 1), 100)`: the result-count
limit, default 10 (also when `parseInt` gives `NaN` or `0`), clamped to
`[1, 100]`. -/
def resultLimit (limit : JsVal) : Nat :=
  let p : Int :=
    match jsParseInt limit with
    | some n => if n ≠ 0 then n else 10
    | none => 10
  (min (max p 1) 100).toNat

/-- The `results` array of the response: sorted matches truncated to the
limit. -/
def searchResults (q : TireQuery) (data : List Product) : List (Product × TireSpecs) :=
  (ordenaPorPrecio (matchingTires q data)).take (resultLimit q.limit)

/-- The whole handler: a missing/falsy `width` is answered with the 400
error, otherwise the (sorted, truncated) result list is returned. -/
def tireSearch (q : TireQuery) (data : List Product) :
    Except String (List (Product × TireSpecs)) :=
  if !q.width.truthy then .error "Tire width (width) is a required parameter"
  else .ok (searchResults q data)

/-- The query induced by the own parsed spec of a product (each non-null field
passed as a number, `exact_match` set). -/
def consultaPropia (specs : TireSpecs) : TireQuery where
  width := match specs.width with | some w => .num w | none => .indefinido
  aspect_ratio := match specs.aspect_ratio with | some a => .num a | none => .indefinido
  aspectRatio := .indefinido
  rim_diameter := match specs.rim_diameter with | some d => .num d | none => .indefinido
  diameter := .indefinido
  exact_match := true
  limit := .indefinido

/-! ### The booking service (`POST /api/citas/agendar`)

Embedding of the handler of the first booking-service variant (the one the
design specification describes): the per-service duration rule, the
half-open-interval conflict scan over the fetched sheet rows, and the
30-minute slot-suggestion loop over the 09:00–18:00 business window.

A sheet row is a `List String`; the handler reads `cita[5]`, `cita[6]`,
`cita[7]` (fecha, hora, servicio), a missing cell being the empty string
(JavaScript `undefined` and the empty string are equally falsy there).  A date-time is
the minute count `day * 1440 + minute` produced by `parseFechaHora`; an
invalid date (JavaScript `NaN`) is `none` and, as in JavaScript, every
comparison against it is false. -/

/-- Model of `toLowerCase()` (character-wise; the services the program compares are
ASCII). -/
def jsToLower (s : String) : String :=
  ⟨s.toList.map Char.toLower⟩

/-- Evaluation of `servicio.toLowerCase() === "cita" ? 60 : 30` — the duration rule, used
identically for the requested appointment and for every existing row. -/
def duracionServicio (servicio : String) : Nat :=
  if jsToLower servicio = "cita" then 60 else 30

/-- Days of a proleptic-Gregorian civil date (what `new Date` on such text
counts, up to the fixed epoch offset, which cancels in every comparison the
handler makes). -/
def diasCiviles (y m d : Nat) : Nat :=
  let ya := if m ≤ 2 then y - 1 else y
  let mp := if m ≤ 2 then m + 9 else m - 3
  365 * ya + ya / 4 - ya / 100 + ya / 400 + (153 * mp + 2) / 5 + (d - 1)

/-- Parse `"YYYY-MM-DD"` into a day count; malformed or out-of-range text
is an invalid date (`none`). -/
def parseFecha (s : String) : Option Nat :=
  match s.toList with
  | [y1, y2, y3, y4, '-', m1, m2, '-', d1, d2] =>
    if [y1, y2, y3, y4, m1, m2, d1, d2].all esDigito then
      let y := valorDecimal [y1, y2, y3, y4]
      let mo := valorDecimal [m1, m2]
      let d := valorDecimal [d1, d2]
      if 1 ≤ mo && mo ≤ 12 && 1 ≤ d && d ≤ 31 then some (diasCiviles y mo d)
      else none
    else none
  | _ => none

/-- Parse `"HH:MM"` into minutes after midnight; malformed or out-of-range
text is an invalid date (`none`). -/
def parseHora (s : String) : Option Nat :=
  match s.toList with
  | [h1, h2, ':', m1, m2] =>
    if [h1, h2, m1, m2].all esDigito then
      let h := valorDecimal [h1, h2]
      let m := valorDecimal [m1, m2]
      if h < 24 && m < 60 then some (60 * h + m) else none
    else none
  | _ => none

/-- Combination `new Date(fecha + T + hora + :00)` as total minutes; `none` is the
invalid date. -/
def parseFechaHora (fecha hora : String) : Option Nat := do
  let d ← parseFecha fecha
  let m ← parseHora hora
  pure (d * 1440 + m)

/-- Reading `cita[i]` from a sheet row: a missing cell is `undefined`,
which the emptiness guards treat exactly like the empty string. -/
def celda (c : List String) (i : Nat) : String :=
  c.getD i ""

/-- The half-open-interval overlap test
`inicioA < finB && finA > inicioB` on two intervals `[inicioA, finA)`,
`[inicioB, finB)`. -/
def seSuperponen (inicioA finA inicioB finB : Nat) : Bool :=
  decide (inicioA < finB) && decide (finA > inicioB)

/-- One iteration of the conflict scan (source lines 149–166): skip a row
with a missing fecha/hora/servicio, reconstruct the existing interval with
the same duration rule, and test overlap against the requested interval.
`inicio?` is the requested start (`none` when the requested date-time was
invalid, in which case both `NaN` comparisons are false). -/
def conflictoConCita (inicio? : Option Nat) (dur : Nat) (cita : List String) : Bool :=
  let fechaExistente := celda cita 5
  let horaExistente := celda cita 6
  let servicioExistente := celda cita 7
  if fechaExistente = "" || horaExistente = "" || servicioExistente = "" then false
  else
    match inicio?, parseFechaHora fechaExistente horaExistente with
    | some s, some inicioExistente =>
      seSuperponen s (s + dur) inicioExistente
        (inicioExistente + duracionServicio servicioExistente)
    | _, _ => false

/-- One iteration of the inner scan of the suggestion loop (source lines
215–233): only rows of the requested day count, and the same overlap test;
`t`/`finT` are the bounds of the candidate slot in minutes of that day. -/
def citaBloqueaSlot (fecha : String) (t finT : Nat) (cita : List String) : Bool :=
  let fechaExistente := celda cita 5
  let horaExistente := celda cita 6
  let servicioExistente := celda cita 7
  if fechaExistente = "" || horaExistente = "" || servicioExistente = "" then false
  else if fechaExistente ≠ fecha then false
  else
    match parseHora horaExistente with
    | some inicioExistente =>
      seSuperponen t finT inicioExistente
        (inicioExistente + duracionServicio servicioExistente)
    | none => false

/-- Two-digit rendering, as `toTimeString()` produces. -/
def dosDigitos (n : Nat) : String :=
  if n < 10 then "0" ++ toString n else toString n

/-- Rendering `toTimeString().substring(0, 5)` of a minute of the day. -/
def fmtHora (t : Nat) : String :=
  dosDigitos (t / 60) ++ ":" ++ dosDigitos (t % 60)

/-- The `while (tiempoPrueba < finJornada)` suggestion loop, stepping 30
minutes, breaking once the end of the candidate passes the end of the window.
`pasos` is structural fuel; the loop runs at most `⌈(fin - t) / 30⌉`
iterations, so any fuel at least that large computes the loop exactly. -/
def horariosLoop (fin dur : Nat) (fecha : String) (citas : List (List String)) :
    Nat → Nat → List String
  | _, 0 => []
  | t, pasos + 1 =>
    if t < fin then
      if t + dur > fin then []
      else
        (if citas.any (citaBloqueaSlot fecha t (t + dur)) then []
         else [fmtHora t]) ++
          horariosLoop fin dur fecha citas (t + 30) pasos
    else []

/-- The `horariosDisponibles` computation of the conflict branch: scan the
fixed 09:00–18:00 window (minutes 540–1080).  An unparseable request date
makes `inicioJornada` invalid, so the loop body never runs.  18 steps of
fuel cover the whole window. -/
def horariosDisponibles (fecha : String) (dur : Nat) (citas : List (List String)) :
    List String :=
  match parseFecha fecha with
  | none => []
  | some _ => horariosLoop 1080 dur fecha citas 540 18

/-- The outcome of the handler: the 400 validation error, the 201 agendada
response together with the row appended to the sheet, or the 409 conflict
response carrying the suggested slots. -/
inductive ResultadoAgendar where
  | camposFaltantes
  | agendada (fila : List String)
  | conflicto (horariosSugeridos : List String)
deriving DecidableEq, Repr

/-- The request body of `POST /api/citas/agendar`.  The handler only tests
`!campo`, so an absent field and the empty string coincide. -/
structure SolicitudCita where
  nombre : String
  telefono : String
  industria : String
  solicitudes : String
  empleados : String
  fecha : String
  hora : String
  servicio : String
  notas : String
deriving Repr

/-- The `nuevaFila` row appended on success (the defaulting `x || ""` is the
identity on these strings). -/
def nuevaFila (r : SolicitudCita) : List String :=
  [r.nombre, r.telefono, r.industria, r.solicitudes, r.empleados,
   r.fecha, r.hora, r.servicio, r.notas]

/-- The `POST /api/citas/agendar` handler on the fetched rows: validate the
required fields, run the conflict scan, and either append the new row or
answer with the suggested slots.  (The sheet append itself is I/O; its
success path is the returned row.) -/
def agendar (r : SolicitudCita) (citas : List (List String)) : ResultadoAgendar :=
  if r.nombre = "" || r.fecha = "" || r.hora = "" || r.servicio = "" then
    .camposFaltantes
  else
    let duracionMinutos := duracionServicio r.servicio
    let inicio? := parseFechaHora r.fecha r.hora
    if citas.any (conflictoConCita inicio? duracionMinutos) then
      .conflicto (horariosDisponibles r.fecha duracionMinutos citas)
    else
      .agendada (nuevaFila r)

/-! ### Reloading the Excel data (`loadExcelData`, `POST /api/price-list/reload`)

The file read and sheet-to-JSON conversion are the I/O boundary; their
outcome is the `lectura` argument.  `loadExcelData` assigns the global
`priceListData` only after a successful conversion and returns whether it
succeeded; the `catch` branch leaves the global untouched. -/

def loadExcelData (lectura : Except String (List Product)) (priceListData : List Product) :
    Bool × List Product :=
  match lectura with
  | .ok registros => (true, registros)
  | .error _ => (false, priceListData)

/-- The body of the reload response. -/
structure ReloadResponse where
  success : Bool
  total : Nat
deriving DecidableEq, Repr

/-- The `POST /api/price-list/reload` handler: call `loadExcelData`, then
report its success flag and the length of the (possibly retained) list. -/
def reloadHandler (lectura : Except String (List Product))
    (priceListData : List Product) : ReloadResponse × List Product :=
  let resultado := loadExcelData lectura priceListData
  ({ success := resultado.1, total := resultado.2.length }, resultado.2)

/-! ### Helper lemmas -/

/-- A sheet row in conflict with a request starting at minute `s`, stated
the way the specification words it: the row is reconstructible (fields
present and a valid date-time), its interval is rebuilt with the same
duration rule, and the half-open-interval test holds. -/
def citaEnConflicto (s durReq : Nat) (c : List String) : Prop :=
  (celda c 5 ≠ "" ∧ celda c 6 ≠ "" ∧ celda c 7 ≠ "") ∧
  ∃ inicioExistente,
    parseFechaHora (celda c 5) (celda c 6) = some inicioExistente ∧
    seSuperponen s (s + durReq) inicioExistente
      (inicioExistente + duracionServicio (celda c 7)) = true

/-- Example request and sheet used to instantiate the booking theorems. -/
def solicitudEjemplo : SolicitudCita :=
  { nombre := "Ana", telefono := "", industria := "", solicitudes := "",
    empleados := "", fecha := "2025-01-06", hora := "09:30",
    servicio := "Cita", notas := "" }

/-- Example sheet rows: one confirmed booking 09:00–10:00 on the same day. -/
def citasEjemplo : List (List String) :=
  [["a", "b", "c", "d", "e", "2025-01-06", "09:00", "Cita", ""]]

/-- Example fuzzy query at aspect-ratio distance exactly 5 from the parsed
value 55. -/
def consultaDistancia5 : TireQuery :=
  { width := .num 185, aspect_ratio := .num 60, aspectRatio := .indefinido,
    rim_diameter := .indefinido, diameter := .indefinido, exact_match := false,
    limit := .indefinido }

/-- Example fuzzy query at aspect-ratio distance exactly 6 from the parsed
value 55. -/
def consultaDistancia6 : TireQuery :=
  { width := .num 185, aspect_ratio := .num 61, aspectRatio := .indefinido,
    rim_diameter := .indefinido, diameter := .indefinido, exact_match := false,
    limit := .indefinido }

/-- Example parsed product for the boundary witness (width 185, aspect
ratio 55). -/
def especEjemplo185 : TireSpecs := parseTireSpecification "185 55 R15 82H"

/-- Example exact-mode car query carrying the rim diameter as the plain
string `"13"`. -/
def consultaExacta13 : TireQuery :=
  { width := .num 155, aspect_ratio := .num 70, aspectRatio := .indefinido,
    rim_diameter := .str "13", diameter := .indefinido, exact_match := true,
    limit := .indefinido }

/-- The same exact-mode query with the rim diameter written `"R13"`. -/
def consultaExactaR13 : TireQuery :=
  { width := .num 155, aspect_ratio := .num 70, aspectRatio := .indefinido,
    rim_diameter := .str "R13", diameter := .indefinido, exact_match := true,
    limit := .indefinido }

/-- Example parsed product for the diameter claims (rim diameter 13). -/
def especEjemplo155 : TireSpecs :=
  parseTireSpecification "155 70 13 75T MIRAGE MR-166 AUTO"

/-- Example truck-mode query for the C6 witness. -/
def consultaCamion : TireQuery :=
  { width := .num 1100, aspect_ratio := .indefinido, aspectRatio := .indefinido,
    rim_diameter := .str "R22", diameter := .indefinido, exact_match := false,
    limit := .indefinido }

/-- Example parsed truck product for the C6 witness. -/
def especCamion : TireSpecs := parseTireSpecification "1100 R22 T-2400 14/C"

/-- The ascending 30-minute candidate grid the suggestion loop visits,
written with the same structural fuel as the loop. -/
def rejillaPasos (fin : Nat) : Nat → Nat → List Nat
  | 0, _ => []
  | pasos + 1, t => if t < fin then t :: rejillaPasos fin pasos (t + 30) else []

/-- The fifteen slots suggested in the running conflict example. -/
def sugerenciasEjemplo : List String :=
  ["10:00", "10:30", "11:00", "11:30", "12:00", "12:30", "13:00", "13:30",
   "14:00", "14:30", "15:00", "15:30", "16:00", "16:30", "17:00"]

/-- Ten cheap products all named `155 70 13 A`, with ascending prices. -/
def datosBaratos : List Product :=
  [⟨"P1", "155 70 13 A", 1⟩, ⟨"P2", "155 70 13 A", 2⟩,
   ⟨"P3", "155 70 13 A", 3⟩, ⟨"P4", "155 70 13 A", 4⟩,
   ⟨"P5", "155 70 13 A", 5⟩, ⟨"P6", "155 70 13 A", 6⟩,
   ⟨"P7", "155 70 13 A", 7⟩, ⟨"P8", "155 70 13 A", 8⟩,
   ⟨"P9", "155 70 13 A", 9⟩, ⟨"P10", "155 70 13 A", 10⟩]

/-- An eleventh, most expensive product with the same parsed spec. -/
def prodCaro : Product := ⟨"T", "155 70 13 A", 100⟩

/-- The data set of the truncation counterexample. -/
def datosMuchos : List Product := datosBaratos ++ [prodCaro]

/-- The ten results actually returned for the exact self-query of
`prodCaro` over `datosMuchos` (default limit 10, sorted by price). -/
def resultadosEsperados : List (Product × TireSpecs) :=
  datosBaratos.map (fun p => (p, parseTireSpecification "155 70 13 A"))

example : (parseTireSpecification "155 70 13 75T MIRAGE MR-166 AUTO").width = some 155 := by decide
example : (parseTireSpecification "175 65 R15 84H SAFERICH FRC16").rim_diameter = some 15 := by decide
example : (parseTireSpecification "1100 R22 T-2400 14/C").type = some .truck := by decide
example : (parseTireSpecification "LLANTA 185/60R14 82H").aspect_ratio = some 60 := by decide
example : (parseTireSpecification "CAMARA 155").width = none := by decide

theorem conflictoConCita_iff (s dur : Nat) (c : List String) :
    conflictoConCita (some s) dur c = true ↔ citaEnConflicto s dur c := by
  unfold conflictoConCita citaEnConflicto
  by_cases h5 : celda c 5 = ""
  · simp [h5]
  by_cases h6 : celda c 6 = ""
  · simp [h5, h6]
  by_cases h7 : celda c 7 = ""
  · simp [h5, h6, h7]
  cases hp : parseFechaHora (celda c 5) (celda c 6) with
  | none => simp [hp, h5, h6, h7]
  | some inicioExistente => simp [hp, h5, h6, h7]

/-! ### The claims -/

/-- C1. For every product name string, tire-spec parsing attempts the four
fixed textual patterns in the stated priority order, the first matching
pattern alone determines the extracted width, aspect ratio, rim diameter
and vehicle class, and for a name matching none of the four patterns the
spec is unparseable with all fields null: the source parser coincides with
the first-match-wins formulation `specParse` on every input. -/
theorem parse_priority_order (name : String) :
    parseTireSpecification name = specParse name := by
  unfold parseTireSpecification specParse
  cases h1 : matchCarTire (jsTrim name).data with
  | some r =>
    obtain ⟨w, a, d⟩ := r
    simp [h1, String.toList, List.findSome?_cons, especDePatron]
  | none =>
    cases h2 : matchCarTireR (jsTrim name).data with
    | some r =>
      obtain ⟨w, a, d⟩ := r
      simp [h1, h2, String.toList, List.findSome?_cons, especDePatron]
    | none =>
      cases h3 : matchTruckTire (jsTrim name).data with
      | some r =>
        obtain ⟨w, d⟩ := r
        simp [h1, h2, h3, String.toList, List.findSome?_cons, especDePatron]
      | none =>
        cases h4 : matchStandard (jsTrim name).data with
        | some r =>
          obtain ⟨w, a, d⟩ := r
          simp [h1, h2, h3, h4, String.toList, List.findSome?_cons, especDePatron]
        | none =>
          simp [h1, h2, h3, h4, String.toList, List.findSome?_cons]

/-- C2. For a well-formed request, the booking handler answers with the
conflict response exactly when some fetched row, reconstructed as the
half-open interval with the same duration rule, overlaps the requested
interval under `reqStart < existingEnd AND reqEnd > existingStart`; when no
row does, the request is accepted and its row appended. -/
theorem agendar_conflicto_iff (r : SolicitudCita) (citas : List (List String))
    (hn : r.nombre ≠ "") (hf : r.fecha ≠ "") (hh : r.hora ≠ "")
    (hs : r.servicio ≠ "") (s : Nat)
    (hinicio : parseFechaHora r.fecha r.hora = some s) :
    ((∃ l, agendar r citas = .conflicto l) ↔
      ∃ c ∈ citas, citaEnConflicto s (duracionServicio r.servicio) c) ∧
    ((¬ ∃ c ∈ citas, citaEnConflicto s (duracionServicio r.servicio) c) →
      agendar r citas = .agendada (nuevaFila r)) := by
  have hguard : (decide (r.nombre = "") || decide (r.fecha = "") ||
      decide (r.hora = "") || decide (r.servicio = "")) = false := by
    simp [hn, hf, hh, hs]
  have hex : (citas.any (conflictoConCita (some s) (duracionServicio r.servicio)) = true) ↔
      ∃ c ∈ citas, citaEnConflicto s (duracionServicio r.servicio) c := by
    rw [List.any_eq_true]
    exact exists_congr fun c => and_congr_right fun _ => conflictoConCita_iff ..
  constructor
  · rw [← hex]
    cases hany : citas.any (conflictoConCita (some s) (duracionServicio r.servicio)) with
    | true => simp [agendar, hguard, hinicio, hany]
    | false => simp [agendar, hguard, hinicio, hany]
  · rw [← hex]
    intro hno
    have hany : citas.any (conflictoConCita (some s) (duracionServicio r.servicio)) = false := by
      cases h : citas.any (conflictoConCita (some s) (duracionServicio r.servicio)) with
      | true => exact absurd h hno
      | false => rfl
    simp [agendar, hguard, hinicio, hany]

/-- Witness for C2 at the example request (whose date-time parses to minute
`diasCiviles 2025 1 6 * 1440 + 570`). -/
theorem agendar_conflicto_iff_witness :
    ((∃ l, agendar solicitudEjemplo citasEjemplo = .conflicto l) ↔
      ∃ c ∈ citasEjemplo,
        citaEnConflicto (diasCiviles 2025 1 6 * 1440 + 570)
          (duracionServicio solicitudEjemplo.servicio) c) ∧
    ((¬ ∃ c ∈ citasEjemplo,
        citaEnConflicto (diasCiviles 2025 1 6 * 1440 + 570)
          (duracionServicio solicitudEjemplo.servicio) c) →
      agendar solicitudEjemplo citasEjemplo = .agendada (nuevaFila solicitudEjemplo)) :=
  agendar_conflicto_iff solicitudEjemplo citasEjemplo (by decide) (by decide)
    (by decide) (by decide) (diasCiviles 2025 1 6 * 1440 + 570) (by decide)

/-- C3. The duration lookup maps exactly one (case-folded) service value,
`"cita"`, to 60 minutes and every other service value to 30 minutes; the
handler applies this one function both to the request and to every
reconstructed row (see `agendar` and `conflictoConCita`). -/
theorem duracionServicio_lookup (servicio : String) :
    (duracionServicio servicio = 60 ∨ duracionServicio servicio = 30) ∧
    (duracionServicio servicio = 60 ↔ jsToLower servicio = "cita") ∧
    (duracionServicio servicio = 30 ↔ jsToLower servicio ≠ "cita") := by
  unfold duracionServicio
  by_cases h : jsToLower servicio = "cita" <;> simp [h]

/-- C7. The overlap predicate is symmetric in the two interval roles, and
two back-to-back intervals sharing only an endpoint never overlap — in
particular 09:00–09:30 (minutes 540–570) against 09:30–10:00 (570–600),
in either role. -/
theorem seSuperponen_simetrica_y_adyacente :
    (∀ a b c d, seSuperponen a b c d = seSuperponen c d a b) ∧
    (∀ a b c, seSuperponen a b b c = false) ∧
    (∀ a b c, seSuperponen b c a b = false) ∧
    seSuperponen 540 570 570 600 = false ∧
    seSuperponen 570 600 540 570 = false := by
  refine ⟨fun a b c d => ?_, fun a b c => ?_, fun a b c => ?_, by decide, by decide⟩
  · unfold seSuperponen
    exact Bool.and_comm ..
  · simp [seSuperponen]
  · simp [seSuperponen]

/-- C5. In fuzzy (default) car-mode search with a truthy numeric query
aspect ratio, a parsed aspect ratio at absolute distance at most 5 passes
the aspect test, and one at distance 6 or more makes the whole product
fail the filter — in particular distance exactly 5 matches and distance
exactly 6 does not (see the witness). -/
theorem fuzzy_aspect_boundary (q : TireQuery) (specs : TireSpecs) (qa : Int)
    (a : Nat) (hfa : jsOr q.aspect_ratio q.aspectRatio = .num qa)
    (hqa : qa ≠ 0) (hex : q.exact_match = false)
    (ha : specs.aspect_ratio = some a)
    (hw : jsLooseEqOpt specs.width q.width = true) :
    (((a : Int) - qa).natAbs ≤ 5 →
      coincideAspecto (JsVal.num qa) specs.aspect_ratio = true) ∧
    (6 ≤ ((a : Int) - qa).natAbs → llantaCoincide q specs = false) := by
  constructor
  · intro h
    simp [coincideAspecto, JsVal.truthy, jsToNumber, ha, hqa, h]
  · intro h
    have hno : ¬ ((a : Int) - qa).natAbs ≤ 5 := by omega
    simp [llantaCoincide, hfa, hex, hw, JsVal.truthy, hqa, coincideAspecto,
      jsToNumber, ha, hno]

/-- Witness for C5: at distance exactly 5 the aspect test passes; at
distance exactly 6 the product fails the whole filter. -/
theorem fuzzy_aspect_boundary_witness :
    coincideAspecto (JsVal.num 60) especEjemplo185.aspect_ratio = true ∧
    llantaCoincide consultaDistancia6 especEjemplo185 = false :=
  ⟨(fuzzy_aspect_boundary consultaDistancia5 especEjemplo185 60 55 rfl
      (by decide) rfl (by decide) (by decide)).1 (by decide),
   (fuzzy_aspect_boundary consultaDistancia6 especEjemplo185 61 55 rfl
      (by decide) rfl (by decide) (by decide)).2 (by decide)⟩

/-- Counterexample to C6 as stated: in the `exact_match` branch the
diameter is compared with raw loose equality, so the verdict is not
invariant under an R prefix on the query side — `"13"` matches the stored
13 but `"R13"` does not, although the R-stripped numeric comparison of
`"R13"` against 13 is true. -/
theorem rim_exact_no_invariante :
    llantaCoincide consultaExacta13 especEjemplo155 = true ∧
    llantaCoincide consultaExactaR13 especEjemplo155 = false ∧
    rimNumEq (.str "R13") especEjemplo155.rim_diameter = true := by decide

/-- C6 (amended). In the fuzzy car branch and in the truck branch the
diameter verdict is the `rimNumEq` comparison, which strips `R`/`r` from
both sides before the numeric test: it is invariant under an `R` or `r`
prefix on the query, it coincides with numeric equality of the stripped
values against the stored diameter, and for a truck-mode query the whole
filter is exactly the width test conjoined with it.  (In the exact car
branch the comparison is raw loose equality instead.) -/
theorem rim_strip_invariante (s : String) (d : Nat) (hd : d < 100)
    (d? : Option Nat) (q : TireQuery) (specs : TireSpecs)
    (htruck : (jsOr q.aspect_ratio q.aspectRatio).truthy = false)
    (hrim : (jsOr q.rim_diameter q.diameter).truthy = true) :
    (rimNumEq (.str ("R" ++ s)) d? = rimNumEq (.str s) d?) ∧
    (rimNumEq (.str ("r" ++ s)) d? = rimNumEq (.str s) d?) ∧
    (rimNumEq (.str s) (some d) = (jsParseIntOfString (quitaR s) == some (d : Int))) ∧
    (llantaCoincide q specs =
      (jsLooseEqOpt specs.width q.width &&
        rimNumEq (jsOr q.rim_diameter q.diameter) specs.rim_diameter)) := by
  have hRs : quitaR ("R" ++ s) = quitaR s := by
    simp [quitaR, String.data_append]
  have hrs : quitaR ("r" ++ s) = quitaR s := by
    simp [quitaR, String.data_append]
  refine ⟨?_, ?_, ?_, ?_⟩
  · simp [rimNumEq, jsValToString, hRs]
  · simp [rimNumEq, jsValToString, hrs]
  · have hd' : jsParseIntOfString (quitaR (jsOptNatToString (some d))) = some (d : Int) := by
      revert hd
      revert d
      decide
    rw [rimNumEq, jsValToString, hd']
    cases jsParseIntOfString (quitaR s) with
    | none => rfl
    | some x => rfl
  · cases hW : jsLooseEqOpt specs.width q.width with
    | false => simp [llantaCoincide, hW]
    | true => simp [llantaCoincide, hW, htruck, hrim]

/-- Witness for the amended C6 at a truck query: prefix invariance at
`"R22"`, stripped numeric equality at diameter 22, and the truck filter
decomposition. -/
theorem rim_strip_invariante_witness :
    (rimNumEq (.str ("R" ++ "22")) (some 22) = rimNumEq (.str "22") (some 22)) ∧
    (rimNumEq (.str "22") (some 22) = (jsParseIntOfString (quitaR "22") == some (22 : Int))) ∧
    (llantaCoincide consultaCamion especCamion =
      (jsLooseEqOpt especCamion.width consultaCamion.width &&
        rimNumEq (jsOr consultaCamion.rim_diameter consultaCamion.diameter)
          especCamion.rim_diameter)) :=
  ⟨(rim_strip_invariante "22" 22 (by decide) (some 22) consultaCamion especCamion
      rfl rfl).1,
   (rim_strip_invariante "22" 22 (by decide) (some 22) consultaCamion especCamion
      rfl rfl).2.2.1,
   (rim_strip_invariante "22" 22 (by decide) (some 22) consultaCamion especCamion
      rfl rfl).2.2.2⟩

theorem mem_rejillaPasos {fin pasos t u : Nat}
    (h : u ∈ rejillaPasos fin pasos t) : t ≤ u := by
  induction pasos generalizing t with
  | zero => simp [rejillaPasos] at h
  | succ n ih =>
    by_cases hlt : t < fin
    · simp only [rejillaPasos, hlt, if_true, List.mem_cons] at h
      rcases h with h | h
      · omega
      · have := ih h
        omega
    · simp [rejillaPasos, hlt] at h

theorem horariosLoop_eq_filtrar (fin dur : Nat) (fecha : String)
    (citas : List (List String)) :
    ∀ pasos t,
      horariosLoop fin dur fecha citas t pasos =
        ((rejillaPasos fin pasos t).filter
          (fun u => decide (u + dur ≤ fin) &&
            !(citas.any (citaBloqueaSlot fecha u (u + dur))))).map fmtHora := by
  intro pasos
  induction pasos with
  | zero => intro t; simp [horariosLoop, rejillaPasos]
  | succ n ih =>
    intro t
    by_cases hlt : t < fin
    · by_cases hdur : t + dur > fin
      · have hnil : (rejillaPasos fin (n + 1) t).filter
            (fun u => decide (u + dur ≤ fin) &&
              !(citas.any (citaBloqueaSlot fecha u (u + dur)))) = [] := by
          rw [List.filter_eq_nil_iff]
          intro u hu
          have hte := mem_rejillaPasos hu
          simp only [Bool.and_eq_true, decide_eq_true_eq, not_and]
          intro hle
          omega
        simp [horariosLoop, hlt, hdur, hnil]
      · by_cases hany : citas.any (citaBloqueaSlot fecha t (t + dur)) = true
        · simp [horariosLoop, rejillaPasos, hlt, hdur, hany, ih,
            show t + dur ≤ fin by omega]
        · simp only [Bool.not_eq_true] at hany
          simp [horariosLoop, rejillaPasos, hlt, hdur, hany, ih,
            show t + dur ≤ fin by omega]
    · simp [horariosLoop, rejillaPasos, hlt]

theorem rejilla_ventana :
    rejillaPasos 1080 18 540 = (List.range 18).map (fun k => 540 + 30 * k) := by
  decide

theorem parseHora_fmtHora_rejilla :
    ∀ t ∈ (List.range 18).map (fun k => 540 + 30 * k),
      parseHora (fmtHora t) = some t := by
  decide

/-- Counterexample to C8 as stated: on a conflicting request the handler
returns every free slot of the day — here fifteen suggestions, more than
the claimed bound of five. -/
theorem sugerencias_mas_de_cinco :
    agendar solicitudEjemplo citasEjemplo = .conflicto sugerenciasEjemplo ∧
    sugerenciasEjemplo.length = 15 ∧ 5 < sugerenciasEjemplo.length := by
  decide

/-- C8 (amended). On conflict, slot suggestion scans the candidate start
times at 30-minute granularity across the fixed 09:00–18:00 window
(minutes `540 + 30 * k`, `k < 18`), keeps exactly the candidates whose
duration-extended interval stays inside the window and which pass the same
overlap predicate against the same-day bookings, and returns all of them
(not at most 5), in ascending chronological order as given by the grid. -/
theorem horariosDisponibles_caracterizacion (fecha : String) (dur : Nat)
    (citas : List (List String)) (d0 : Nat) (hf : parseFecha fecha = some d0) :
    horariosDisponibles fecha dur citas =
      (((List.range 18).map (fun k => 540 + 30 * k)).filter
        (fun t => decide (t + dur ≤ 1080) &&
          !(citas.any (citaBloqueaSlot fecha t (t + dur))))).map fmtHora := by
  unfold horariosDisponibles
  rw [hf, horariosLoop_eq_filtrar, rejilla_ventana]

/-- Witness for the amended C8 at the running example: the suggestion list
equals the filtered grid. -/
theorem horariosDisponibles_caracterizacion_witness :
    horariosDisponibles "2025-01-06" 60 citasEjemplo =
      (((List.range 18).map (fun k => 540 + 30 * k)).filter
        (fun t => decide (t + 60 ≤ 1080) &&
          !(citasEjemplo.any (citaBloqueaSlot "2025-01-06" t (t + 60))))).map fmtHora :=
  horariosDisponibles_caracterizacion "2025-01-06" 60 citasEjemplo
    (diasCiviles 2025 1 6) (by decide)

/-- C9. Every suggested time parses back to a minute of the day whose
duration-extended interval does not pass the end of the business window
(18:00, minute 1080). -/
theorem sugerencias_dentro_de_jornada (fecha : String) (dur : Nat)
    (citas : List (List String)) (sug : String)
    (hmem : sug ∈ horariosDisponibles fecha dur citas) :
    ∃ t, parseHora sug = some t ∧ t + dur ≤ 1080 := by
  unfold horariosDisponibles at hmem
  cases hf : parseFecha fecha with
  | none => rw [hf] at hmem; simp at hmem
  | some d0 =>
    rw [hf] at hmem
    rw [show (match some d0 with
        | none => ([] : List String)
        | some _ => horariosLoop 1080 dur fecha citas 540 18) =
        horariosLoop 1080 dur fecha citas 540 18 from rfl] at hmem
    rw [horariosLoop_eq_filtrar, rejilla_ventana] at hmem
    rw [List.mem_map] at hmem
    obtain ⟨t, ht, rfl⟩ := hmem
    rw [List.mem_filter] at ht
    obtain ⟨htg, hp⟩ := ht
    simp only [Bool.and_eq_true, decide_eq_true_eq] at hp
    exact ⟨t, parseHora_fmtHora_rejilla t htg, hp.1⟩

/-- Witness for C9: the suggested slot `"09:00"` of a free day parses to
minute 540, and 540 + 60 stays inside the window. -/
theorem sugerencias_dentro_de_jornada_witness :
    ∃ t, parseHora "09:00" = some t ∧ t + 60 ≤ 1080 :=
  sugerencias_dentro_de_jornada "2025-01-06" 60 [] "09:00" (by decide)

theorem valorDecimal_lt (cs : List Char) (h : ∀ c ∈ cs, esDigito c = true) :
    valorDecimal cs < 10 ^ cs.length := by
  suffices haux : ∀ (ds : List Char) (acc : Nat), (∀ c ∈ ds, esDigito c = true) →
      ds.foldl (fun acc c => 10 * acc + valorDigito c) acc <
        (acc + 1) * 10 ^ ds.length by
    simpa [valorDecimal] using haux cs 0 h
  intro ds
  induction ds with
  | nil =>
    intro acc _
    simp
  | cons c ds ih =>
    intro acc hall
    have hc : esDigito c = true := hall c (List.mem_cons_self c ds)
    have hv : valorDigito c ≤ 9 := by
      unfold esDigito at hc
      unfold valorDigito
      simp only [Bool.and_eq_true, decide_eq_true_eq] at hc
      omega
    have h1 := ih (10 * acc + valorDigito c)
      (fun x hx => hall x (List.mem_cons_of_mem c hx))
    calc List.foldl (fun acc c => 10 * acc + valorDigito c)
          (10 * acc + valorDigito c) ds
        < (10 * acc + valorDigito c + 1) * 10 ^ ds.length := h1
      _ ≤ ((acc + 1) * 10) * 10 ^ ds.length :=
          Nat.mul_le_mul_right _ (by omega)
      _ = (acc + 1) * 10 ^ (ds.length + 1) := by ring
      _ = (acc + 1) * 10 ^ (c :: ds).length := by simp

theorem matchTruckTire_rim_lt {cs : List Char} {w d : Nat}
    (h : matchTruckTire cs = some (w, d)) : d < 100 := by
  unfold matchTruckTire at h
  simp only [tomaDigitos] at h
  split at h
  · cases he : tomaEspacios (List.dropWhile esDigito cs) with
    | none => rw [he] at h; simp at h
    | some r2 =>
      rw [he] at h
      simp only [Option.bind_eq_bind, Option.some_bind] at h
      split at h
      next r3 =>
        split at h
        next h2 =>
          cases he2 : tomaEspacios (List.dropWhile esDigito r3) with
          | none => rw [he2] at h; simp at h
          | some r4 =>
            rw [he2] at h
            simp only [Option.bind_eq_bind, Option.some_bind, Option.pure_def,
              Option.some.injEq, Prod.mk.injEq] at h
            obtain ⟨hw2, hd2⟩ := h
            have hds : ∀ c ∈ r3.takeWhile esDigito, esDigito c = true :=
              fun c hc => List.mem_takeWhile_imp hc
            have hb := valorDecimal_lt (r3.takeWhile esDigito) hds
            rw [h2] at hb
            omega
        next h2 => simp at h
      next => simp at h
  · simp at h

theorem parse_aspect_none_rim_lt {name : String} {d : Nat}
    (ha : (parseTireSpecification name).aspect_ratio = none)
    (hd : (parseTireSpecification name).rim_diameter = some d) : d < 100 := by
  simp only [parseTireSpecification, String.toList] at ha hd
  cases h1 : matchCarTire (jsTrim name).data with
  | some r =>
    obtain ⟨w, a, dd⟩ := r
    simp only [h1] at ha
    simp at ha
  | none =>
    simp only [h1] at ha hd
    cases h2 : matchCarTireR (jsTrim name).data with
    | some r =>
      obtain ⟨w, a, dd⟩ := r
      simp only [h2] at ha
      simp at ha
    | none =>
      simp only [h2] at ha hd
      cases h3 : matchTruckTire (jsTrim name).data with
      | some r =>
        obtain ⟨w, dd⟩ := r
        simp only [h3] at hd
        simp at hd
        exact hd ▸ matchTruckTire_rim_lt h3
      | none =>
        simp only [h3] at ha hd
        cases h4 : matchStandard (jsTrim name).data with
        | some r =>
          obtain ⟨w, a, dd⟩ := r
          simp only [h4] at ha
          simp at ha
        | none =>
          simp only [h4] at hd
          simp at hd

theorem rimNumEq_self : ∀ d : Nat, d < 100 →
    rimNumEq (JsVal.num (d : Int)) (some d) = true := by
  decide

theorem mem_insertaPorPrecio {x a : Product × TireSpecs}
    {l : List (Product × TireSpecs)} :
    a ∈ insertaPorPrecio x l ↔ a = x ∨ a ∈ l := by
  induction l with
  | nil => simp [insertaPorPrecio]
  | cons y ys ih =>
    by_cases h : y.1.precioFinal ≤ x.1.precioFinal
    · simp only [insertaPorPrecio, if_pos h, List.mem_cons, ih]
      tauto
    · simp only [insertaPorPrecio, if_neg h, List.mem_cons]

theorem length_insertaPorPrecio (x : Product × TireSpecs)
    (l : List (Product × TireSpecs)) :
    (insertaPorPrecio x l).length = l.length + 1 := by
  induction l with
  | nil => rfl
  | cons y ys ih =>
    by_cases h : y.1.precioFinal ≤ x.1.precioFinal
    · simp [insertaPorPrecio, if_pos h, ih]
    · simp [insertaPorPrecio, if_neg h]

theorem mem_ordenaPorPrecio {a : Product × TireSpecs}
    {l : List (Product × TireSpecs)} :
    a ∈ ordenaPorPrecio l ↔ a ∈ l := by
  induction l with
  | nil => simp [ordenaPorPrecio]
  | cons y ys ih =>
    simp only [ordenaPorPrecio, mem_insertaPorPrecio, ih, List.mem_cons]

theorem length_ordenaPorPrecio (l : List (Product × TireSpecs)) :
    (ordenaPorPrecio l).length = l.length := by
  induction l with
  | nil => rfl
  | cons y ys ih =>
    simp [ordenaPorPrecio, length_insertaPorPrecio, ih]

/-- Counterexample to C4 as stated: eleven products share the spec
`155 70 13`; the most expensive one queries its own parsed spec with
`exact_match = true`, but the result list is truncated to the default
limit of 10 and does not contain it. -/
theorem tireSearch_trunca_excluye_propio :
    prodCaro ∈ datosMuchos ∧
    (parseTireSpecification prodCaro.producto).width = some 155 ∧
    tireSearch (consultaPropia (parseTireSpecification prodCaro.producto))
        datosMuchos =
      .ok (searchResults (consultaPropia (parseTireSpecification prodCaro.producto))
        datosMuchos) ∧
    searchResults (consultaPropia (parseTireSpecification prodCaro.producto))
      datosMuchos = resultadosEsperados ∧
    (prodCaro, parseTireSpecification prodCaro.producto) ∉ resultadosEsperados :=
  ⟨by decide, by decide, rfl, by decide, by decide⟩

/-- C4 (amended). A product whose name parses to a non-null tire spec with
nonzero numeric fields always satisfies its own exact-match query: it
belongs to the matching set, and it appears in the returned (truncated)
result list whenever the total number of matches does not exceed the
result-count limit. -/
theorem tireSearch_reflexivo (data : List Product) (p : Product)
    (hp : p ∈ data) (w : Nat)
    (hw : (parseTireSpecification p.producto).width = some w) (hw0 : w ≠ 0)
    (ha0 : ∀ a, (parseTireSpecification p.producto).aspect_ratio = some a → a ≠ 0)
    (hd0 : ∀ d, (parseTireSpecification p.producto).rim_diameter = some d → d ≠ 0) :
    (p, parseTireSpecification p.producto) ∈
      matchingTires (consultaPropia (parseTireSpecification p.producto)) data ∧
    tireSearch (consultaPropia (parseTireSpecification p.producto)) data =
      .ok (searchResults (consultaPropia (parseTireSpecification p.producto)) data) ∧
    ((matchingTires (consultaPropia (parseTireSpecification p.producto)) data).length ≤
        resultLimit (consultaPropia (parseTireSpecification p.producto)).limit →
      (p, parseTireSpecification p.producto) ∈
        searchResults (consultaPropia (parseTireSpecification p.producto)) data) := by
  have hmatch : llantaCoincide (consultaPropia (parseTireSpecification p.producto))
      (parseTireSpecification p.producto) = true := by
    cases ha : (parseTireSpecification p.producto).aspect_ratio with
    | some a =>
      have ha' : a ≠ 0 := ha0 a ha
      cases hd : (parseTireSpecification p.producto).rim_diameter with
      | some d =>
        have hd' : d ≠ 0 := hd0 d hd
        simp [llantaCoincide, consultaPropia, hw, ha, hd, jsOr, JsVal.truthy,
          jsLooseEqOpt, jsLooseEqNum, ha', hd']
      | none =>
        simp [llantaCoincide, consultaPropia, hw, ha, hd, jsOr, JsVal.truthy,
          jsLooseEqOpt, jsLooseEqNum, ha']
    | none =>
      cases hd : (parseTireSpecification p.producto).rim_diameter with
      | some d =>
        have hd' : d ≠ 0 := hd0 d hd
        have hlt : d < 100 := parse_aspect_none_rim_lt ha hd
        have hself := rimNumEq_self d hlt
        simp [llantaCoincide, consultaPropia, hw, ha, hd, jsOr, JsVal.truthy,
          jsLooseEqOpt, jsLooseEqNum, hd', hself]
      | none =>
        simp [llantaCoincide, consultaPropia, hw, ha, hd, jsOr, JsVal.truthy,
          jsLooseEqOpt, jsLooseEqNum]
  have hprod : (p, parseTireSpecification p.producto) ∈ tireProducts data := by
    rw [tireProducts, List.mem_filter]
    constructor
    · exact List.mem_map.mpr ⟨p, hp, rfl⟩
    · simp [hw]
  have hmem : (p, parseTireSpecification p.producto) ∈
      matchingTires (consultaPropia (parseTireSpecification p.producto)) data := by
    rw [matchingTires, List.mem_filter]
    exact ⟨hprod, hmatch⟩
  refine ⟨hmem, ?_, ?_⟩
  · simp [tireSearch, consultaPropia, hw, JsVal.truthy, hw0]
  · intro hlen
    rw [searchResults, List.take_of_length_le]
    · exact mem_ordenaPorPrecio.mpr hmem
    · rw [length_ordenaPorPrecio]
      exact hlen

/-- Witness for the amended C4 on a one-product list: the product matches
its own exact query and, the single match being within the limit, appears
in the returned results. -/
theorem tireSearch_reflexivo_witness :
    (prodCaro, parseTireSpecification prodCaro.producto) ∈
      matchingTires (consultaPropia (parseTireSpecification prodCaro.producto))
        [prodCaro] ∧
    tireSearch (consultaPropia (parseTireSpecification prodCaro.producto))
        [prodCaro] =
      .ok (searchResults (consultaPropia (parseTireSpecification prodCaro.producto))
        [prodCaro]) ∧
    (prodCaro, parseTireSpecification prodCaro.producto) ∈
      searchResults (consultaPropia (parseTireSpecification prodCaro.producto))
        [prodCaro] := by
  obtain ⟨h1, h2, h3⟩ := tireSearch_reflexivo [prodCaro] prodCaro
    (List.mem_singleton.mpr rfl) 155 (by decide) (by decide)
    (fun a h => by
      rw [show (parseTireSpecification prodCaro.producto).aspect_ratio = some 70
        from by decide] at h
      cases h
      decide)
    (fun d h => by
      rw [show (parseTireSpecification prodCaro.producto).rim_diameter = some 13
        from by decide] at h
      cases h
      decide)
  exact ⟨h1, h2, h3 (by decide)⟩

/-- C10. Reloading is atomic on failure: when the Excel read throws, the
in-memory list is left unchanged (so every search over it answers as
before) and the endpoint reports failure with the retained count; on
success the list is replaced wholesale and the new count reported. -/
theorem reload_atomico (datos : List Product) (e : String) (q : TireQuery)
    (registros : List Product) :
    loadExcelData (.error e) datos = (false, datos) ∧
    reloadHandler (.error e) datos = ({ success := false, total := datos.length }, datos) ∧
    tireSearch q (loadExcelData (.error e) datos).2 = tireSearch q datos ∧
    loadExcelData (.ok registros) datos = (true, registros) ∧
    reloadHandler (.ok registros) datos =
      ({ success := true, total := registros.length }, registros) :=
  ⟨rfl, rfl, rfl, rfl, rfl⟩

example : agendar
    { nombre := "Ana", telefono := "", industria := "", solicitudes := "",
      empleados := "", fecha := "2025-01-06", hora := "09:30",
      servicio := "Cita", notas := "" }
    [["a", "b", "c", "d", "e", "2025-01-06", "09:00", "Cita", ""]]
    = .conflicto ["10:00", "10:30", "11:00", "11:30", "12:00", "12:30",
      "13:00", "13:30", "14:00", "14:30", "15:00", "15:30", "16:00",
      "16:30", "17:00"] := by decide

end PriceListApi
